import Mathlib

/-!
Verification of the "Личный CFO" budget bot core.

Shallow embedding of `bot.py` (personal-cfo-bot): the budget calculator
`calculate_results`, the per-step message handlers (`process_salary` …
`process_goal_months`, `cancel_calculation`), and the aiogram dispatch
order of the registered handlers.

Modelling conventions:
  * Python `int` values are Lean `Int`; Python `//` (floor division) is
    `Int.fdiv`.
  * The per-user dict `user_data[uid]` is a record of `Option` fields
    (`none` = key absent); `data.get(key, default)` is `Option.getD`.
  * The aiogram FSM state (`BudgetStates` plus the implicit default state)
    is the inductive `BState`, with `BState.idle` for "no state set";
    `state.set_state` / `state.clear()` become the `state` component of a
    handler's result.  `state.clear()` does not touch `user_data`.
  * Outbound `message.answer` calls and logger calls are recorded as an
    output list of abstract `Out` events.
  * `int(text)` is modelled for ASCII digit strings with Python's sign,
    underscore-separator and surrounding-whitespace rules (non-ASCII
    decimal digits are not modelled); `text.replace(" ", "").replace(",", "")`
    removes every space and comma, modelled as a character filter.
-/

/-- Characters stripped by Python `str.strip()` / ignored around an
`int()` literal (ASCII whitespace). -/
def isPySpace (c : Char) : Bool :=
  c = ' ' || c = '\t' || c = '\n' || c = '\x0b' || c = '\x0c' || c = '\r'

/-- Drop leading and trailing whitespace characters. -/
def stripWs (cs : List Char) : List Char :=
  ((cs.dropWhile isPySpace).reverse.dropWhile isPySpace).reverse

/-- Python `str.strip()` on a string. -/
def pyStrip (s : String) : String :=
  String.mk (stripWs s.data)

/-- Digit tail of a Python integer literal: decimal digits where a single
underscore may stand between two digits. `acc` is the value read so far. -/
def pyDigits (acc : Nat) : List Char → Option Nat
  | [] => some acc
  | c :: rest =>
    if c.isDigit then pyDigits (acc * 10 + (c.toNat - 48)) rest
    else if c = '_' then
      match rest with
      | [] => none
      | d :: rest2 =>
        if d.isDigit then pyDigits (acc * 10 + (d.toNat - 48)) rest2
        else none
    else none

/-- Unsigned part of a Python integer literal: must start with a digit. -/
def pyIntAbs : List Char → Option Nat
  | [] => none
  | c :: rest => if c.isDigit then pyDigits (c.toNat - 48) rest else none

/-- Signed Python integer literal (after whitespace stripping). -/
def pyIntOfChars : List Char → Option Int
  | [] => none
  | c :: rest =>
    if c = '-' then (pyIntAbs rest).map (fun n => -(n : Int))
    else if c = '+' then (pyIntAbs rest).map (fun n => (n : Int))
    else (pyIntAbs (c :: rest)).map (fun n => (n : Int))

/-- Python `int(s)` on a string: strip surrounding whitespace, then parse
a signed integer literal; `none` models a raised `ValueError`. -/
def pyInt (s : String) : Option Int :=
  pyIntOfChars (stripWs s.data)

/-- The parse step every numeric handler performs:
`int(message.text.replace(" ", "").replace(",", ""))` — remove all spaces
and commas, then Python `int`. -/
def stripSepInt (t : String) : Option Int :=
  pyInt (String.mk (t.data.filter (fun c => c != ' ' && c != ',')))

/-- One user's entry of the `user_data` dict: collected fields, `none`
when the key is absent. -/
structure UserData where
  salary : Option Int
  other_income : Option Int
  rent : Option Int
  transport : Option Int
  other_bills : Option Int
  goal_name : Option String
  goal_amount : Option Int
  goal_months : Option Int
deriving Repr, DecidableEq

/-- The empty dict `{}` written by `start_calculation`. -/
def emptyData : UserData :=
  { salary := none, other_income := none, rent := none, transport := none,
    other_bills := none, goal_name := none, goal_amount := none,
    goal_months := none }

/-- The dict returned by `calculate_results`. -/
structure CalcResults where
  total_income : Int
  fixed_expenses : Int
  monthly_contribution : Int
  monthly_budget : Int
  daily_limit : Int
  goal_name : String
  goal_months : Int
deriving Repr, DecidableEq

/-- Calculator `calculate_results(data)` from `bot.py` lines 79–119: all financial
calculations, with the `.get` defaults of the source. -/
def calculate_results (data : UserData) : CalcResults :=
  let salary := data.salary.getD 0
  let other_income := data.other_income.getD 0
  let total_income := salary + other_income
  let rent := data.rent.getD 0
  let transport := data.transport.getD 0
  let other_bills := data.other_bills.getD 0
  let fixed_expenses := rent + transport + other_bills
  let goal_amount := data.goal_amount.getD 0
  let goal_months := max 1 (data.goal_months.getD 1)
  let monthly_contribution := Int.fdiv (goal_amount + goal_months - 1) goal_months
  let monthly_budget := total_income - fixed_expenses - monthly_contribution
  let days_in_month : Int := 30
  let daily_limit := if monthly_budget > 0 then Int.fdiv monthly_budget days_in_month else 0
  { total_income := total_income,
    fixed_expenses := fixed_expenses,
    monthly_contribution := monthly_contribution,
    monthly_budget := monthly_budget,
    daily_limit := daily_limit,
    goal_name := data.goal_name.getD "финансовую цель",
    goal_months := goal_months }

/-- FSM states: the eight `BudgetStates` plus `idle` for aiogram's default
"no state set" (the state after `state.clear()`). -/
inductive BState where
  | idle
  | waiting_for_salary
  | waiting_for_other_income
  | waiting_for_rent
  | waiting_for_transport
  | waiting_for_other_bills
  | waiting_for_goal_name
  | waiting_for_goal_amount
  | waiting_for_goal_months
deriving Repr, DecidableEq

/-- Observable effects of one handler run: `message.answer` calls,
abstracted to which message template was sent, and logger calls. -/
inductive Out where
  | welcome
  | exampleText
  | startPrompt
  | ackSalary
  | ackOtherIncome
  | ackRent
  | ackTransport
  | ackOtherBills
  | ackGoalName
  | ackGoalAmount
  | validationError
  | report (r : CalcResults)
  | cancelAck
  | genericErrorMsg
  | logCalcDone
  | logCalcError
deriving Repr, DecidableEq

/-- Result of handling one inbound message for one user: the FSM state
afterwards, that user's `user_data` entry afterwards, and the emitted
messages/log lines in order. -/
structure HandlerResult where
  state : BState
  data : UserData
  out : List Out
deriving Repr, DecidableEq

/-- The cancel-button text checked by all eight data-entry handlers. -/
def cancelText : String := "❌ Отменить расчет"

/-- The cancel-button text shown on the skip keyboard (`get_skip_keyboard`),
which no handler checks for. -/
def altCancelText : String := "❌ Отменить"

/-- The skip-button text of `get_skip_keyboard`. -/
def skipText : String := "⏭ Пропустить"

/-- The main-menu button that starts a calculation. -/
def startButtonText : String := "💰 Рассчитать бюджет"

/-- The main-menu help button. -/
def helpButtonText : String := "❓ Помощь"

/-- The main-menu worked-example button. -/
def exampleButtonText : String := "📊 Пример расчета"

/-- Handler `cancel_calculation`: `state.clear()` (back to no state) and a
cancellation acknowledgment; `user_data` is not touched. -/
def cancel_calculation (d : UserData) : HandlerResult :=
  { state := .idle, data := d, out := [.cancelAck] }

/-- Handler `process_salary` (state `waiting_for_salary`): cancel check, then
parse; values ≤ 0 raise `ValueError`; on success store `salary` and
advance to `waiting_for_other_income`. -/
def process_salary (d : UserData) (t : String) : HandlerResult :=
  if t = cancelText then cancel_calculation d
  else
    match stripSepInt t with
    | none => { state := .waiting_for_salary, data := d, out := [.validationError] }
    | some salary =>
      if salary ≤ 0 then
        { state := .waiting_for_salary, data := d, out := [.validationError] }
      else
        { state := .waiting_for_other_income,
          data := { d with salary := some salary }, out := [.ackSalary] }

/-- Handler `process_other_income` (state `waiting_for_other_income`, skippable):
cancel check, skip check (stores 0), then parse with bound ≥ 0; on
success store `other_income` and advance to `waiting_for_rent`. -/
def process_other_income (d : UserData) (t : String) : HandlerResult :=
  if t = cancelText then cancel_calculation d
  else if t = skipText then
    { state := .waiting_for_rent,
      data := { d with other_income := some 0 }, out := [.ackOtherIncome] }
  else
    match stripSepInt t with
    | none => { state := .waiting_for_other_income, data := d, out := [.validationError] }
    | some other_income =>
      if other_income < 0 then
        { state := .waiting_for_other_income, data := d, out := [.validationError] }
      else
        { state := .waiting_for_rent,
          data := { d with other_income := some other_income }, out := [.ackOtherIncome] }

/-- Handler `process_rent` (state `waiting_for_rent`): bound ≥ 0; on success store
`rent` and advance to `waiting_for_transport`. -/
def process_rent (d : UserData) (t : String) : HandlerResult :=
  if t = cancelText then cancel_calculation d
  else
    match stripSepInt t with
    | none => { state := .waiting_for_rent, data := d, out := [.validationError] }
    | some rent =>
      if rent < 0 then
        { state := .waiting_for_rent, data := d, out := [.validationError] }
      else
        { state := .waiting_for_transport,
          data := { d with rent := some rent }, out := [.ackRent] }

/-- Handler `process_transport` (state `waiting_for_transport`): bound ≥ 0; on
success store `transport` and advance to `waiting_for_other_bills`. -/
def process_transport (d : UserData) (t : String) : HandlerResult :=
  if t = cancelText then cancel_calculation d
  else
    match stripSepInt t with
    | none => { state := .waiting_for_transport, data := d, out := [.validationError] }
    | some transport =>
      if transport < 0 then
        { state := .waiting_for_transport, data := d, out := [.validationError] }
      else
        { state := .waiting_for_other_bills,
          data := { d with transport := some transport }, out := [.ackTransport] }

/-- Handler `process_other_bills` (state `waiting_for_other_bills`, skippable):
like `process_other_income`; on success advance to `waiting_for_goal_name`. -/
def process_other_bills (d : UserData) (t : String) : HandlerResult :=
  if t = cancelText then cancel_calculation d
  else if t = skipText then
    { state := .waiting_for_goal_name,
      data := { d with other_bills := some 0 }, out := [.ackOtherBills] }
  else
    match stripSepInt t with
    | none => { state := .waiting_for_other_bills, data := d, out := [.validationError] }
    | some other_bills =>
      if other_bills < 0 then
        { state := .waiting_for_other_bills, data := d, out := [.validationError] }
      else
        { state := .waiting_for_goal_name,
          data := { d with other_bills := some other_bills }, out := [.ackOtherBills] }

/-- Handler `process_goal_name` (state `waiting_for_goal_name`): cancel check,
then `goal_name = message.text.strip()`; rejected when
`len(goal_name) < 2`; on success store it and advance to
`waiting_for_goal_amount`. -/
def process_goal_name (d : UserData) (t : String) : HandlerResult :=
  if t = cancelText then cancel_calculation d
  else
    let goal_name := pyStrip t
    if goal_name.length < 2 then
      { state := .waiting_for_goal_name, data := d, out := [.validationError] }
    else
      { state := .waiting_for_goal_amount,
        data := { d with goal_name := some goal_name }, out := [.ackGoalName] }

/-- Handler `process_goal_amount` (state `waiting_for_goal_amount`): bound > 0; on
success store `goal_amount` and advance to `waiting_for_goal_months`. -/
def process_goal_amount (d : UserData) (t : String) : HandlerResult :=
  if t = cancelText then cancel_calculation d
  else
    match stripSepInt t with
    | none => { state := .waiting_for_goal_amount, data := d, out := [.validationError] }
    | some goal_amount =>
      if goal_amount ≤ 0 then
        { state := .waiting_for_goal_amount, data := d, out := [.validationError] }
      else
        { state := .waiting_for_goal_months,
          data := { d with goal_amount := some goal_amount }, out := [.ackGoalAmount] }

/-- Handler `process_goal_months` (state `waiting_for_goal_months`, terminal):
bound > 0; on success store `goal_months`, run `calculate_results`, send
the report, `state.clear()`, and log.  `raiseUnexpected` models an
arbitrary non-`ValueError` exception raised by the computation/report
phase inside the `try` block: the `except Exception` clause logs the
error, sends a generic failure message, and calls `state.clear()`
(leaving `user_data` untouched in either case). -/
def process_goal_months (d : UserData) (t : String) (raiseUnexpected : Bool) :
    HandlerResult :=
  if t = cancelText then cancel_calculation d
  else
    match stripSepInt t with
    | none => { state := .waiting_for_goal_months, data := d, out := [.validationError] }
    | some goal_months =>
      if goal_months ≤ 0 then
        { state := .waiting_for_goal_months, data := d, out := [.validationError] }
      else
        let d2 := { d with goal_months := some goal_months }
        if raiseUnexpected then
          { state := .idle, data := d2, out := [.logCalcError, .genericErrorMsg] }
        else
          { state := .idle, data := d2,
            out := [.report (calculate_results d2), .logCalcDone] }

/-- The per-state handler table: which `BudgetStates` handler receives a
plain text message in each FSM state (no handler matches in the default
state, so the message is ignored there). -/
def stateHandler (st : BState) (d : UserData) (t : String)
    (raiseUnexpected : Bool) : HandlerResult :=
  match st with
  | .idle => { state := .idle, data := d, out := [] }
  | .waiting_for_salary => process_salary d t
  | .waiting_for_other_income => process_other_income d t
  | .waiting_for_rent => process_rent d t
  | .waiting_for_transport => process_transport d t
  | .waiting_for_other_bills => process_other_bills d t
  | .waiting_for_goal_name => process_goal_name d t
  | .waiting_for_goal_amount => process_goal_amount d t
  | .waiting_for_goal_months => process_goal_months d t raiseUnexpected

/-- aiogram `Command("start", "help")` filter: the text starts with `/`
and the first token's command part (before any `@mention`) is `start` or
`help`. -/
def isStartOrHelpCommand (t : String) : Bool :=
  match t.data with
  | [] => false
  | c :: rest =>
    c = '/' &&
      (let tok := rest.takeWhile (fun ch => ch != ' ')
       let cmd := tok.takeWhile (fun ch => ch != '@')
       cmd == "start".data || cmd == "help".data)

/-- One dispatcher round for one user's message, following the handler
registration order of `bot.py`: `cmd_start` (`/start`, `/help`),
`cmd_help` (❓ button, which calls `cmd_start`), `show_example`,
`start_calculation` (resets `user_data[uid]` to `{}` and enters
`waiting_for_salary`), then the state-bound data-entry handlers. -/
def step (st : BState) (d : UserData) (t : String) (raiseUnexpected : Bool) :
    HandlerResult :=
  if isStartOrHelpCommand t then { state := st, data := d, out := [.welcome] }
  else if t = helpButtonText then { state := st, data := d, out := [.welcome] }
  else if t = exampleButtonText then { state := st, data := d, out := [.exampleText] }
  else if t = startButtonText then
    { state := .waiting_for_salary, data := emptyData, out := [.startPrompt] }
  else stateHandler st d t raiseUnexpected

/-- The worked-example input of the spec (end-to-end scenario 1). -/
def sampleInput : UserData :=
  { salary := some 70000, other_income := some 20000, rent := some 30000,
    transport := some 6000, other_bills := some 0,
    goal_name := some "Vacation", goal_amount := some 150000,
    goal_months := some 10 }

/-- C1: for the completed input salary=70000, otherIncome=20000, rent=30000,
transport=6000, otherBills=0, goalName="Vacation", goalAmount=150000,
goalMonths=10, `calculate_results` returns totalIncome=90000,
fixedExpenses=36000, monthlyContribution=15000, monthlyBudget=39000,
dailyLimit=1300. -/
theorem C1_worked_example :
    (calculate_results sampleInput).total_income = 90000 ∧
    (calculate_results sampleInput).fixed_expenses = 36000 ∧
    (calculate_results sampleInput).monthly_contribution = 15000 ∧
    (calculate_results sampleInput).monthly_budget = 39000 ∧
    (calculate_results sampleInput).daily_limit = 1300 := by
  decide

/-- C4: for every input, `daily_limit` equals `floor(monthly_budget / 30)`
when `monthly_budget ≥ 1` and equals 0 otherwise; in particular
`daily_limit ≥ 0` always, including for negative budgets. -/
theorem C4_daily_limit_floor (d : UserData) :
    ((calculate_results d).daily_limit =
      if 1 ≤ (calculate_results d).monthly_budget
      then Int.fdiv (calculate_results d).monthly_budget 30 else 0) ∧
    0 ≤ (calculate_results d).daily_limit := by
  have h : (calculate_results d).daily_limit =
      if (calculate_results d).monthly_budget > 0
      then Int.fdiv (calculate_results d).monthly_budget 30 else 0 := rfl
  rcases lt_or_le 0 (calculate_results d).monthly_budget with hb | hb
  · rw [h, if_pos hb, if_pos (by omega)]
    exact ⟨rfl, Int.fdiv_nonneg (le_of_lt hb) (by norm_num)⟩
  · rw [h, if_neg (by omega), if_neg (by omega)]
    exact ⟨rfl, le_refl 0⟩

/-- C5: for every input with `goal_amount > 0`, the monthly contribution
is exactly the ceiling of `goal_amount / effectiveGoalMonths` where
`effectiveGoalMonths = max 1 goal_months`: it satisfies
`contribution * months ≥ amount` and `(contribution - 1) * months < amount`. -/
theorem C5_ceiling_division (d : UserData) (_ha : 0 < d.goal_amount.getD 0) :
    d.goal_amount.getD 0 ≤
      (calculate_results d).monthly_contribution * max 1 (d.goal_months.getD 1) ∧
    ((calculate_results d).monthly_contribution - 1) * max 1 (d.goal_months.getD 1) <
      d.goal_amount.getD 0 := by
  have hc : (calculate_results d).monthly_contribution =
      Int.fdiv (d.goal_amount.getD 0 + max 1 (d.goal_months.getD 1) - 1)
        (max 1 (d.goal_months.getD 1)) := rfl
  set a := d.goal_amount.getD 0 with haeq
  set m := max 1 (d.goal_months.getD 1) with hmeq
  have hm : (0:Int) < m := lt_of_lt_of_le zero_lt_one (le_max_left 1 _)
  have h1 := Int.fmod_add_fdiv (a + m - 1) m
  have h2 := Int.fmod_nonneg' (a + m - 1) hm
  have h3 := Int.fmod_lt_of_pos (a + m - 1) hm
  rw [hc]
  constructor <;> nlinarith [h1, h2, h3]

/-- Witness for C5 at the worked-example input. -/
theorem C5_ceiling_division_witness :
    sampleInput.goal_amount.getD 0 ≤
      (calculate_results sampleInput).monthly_contribution *
        max 1 (sampleInput.goal_months.getD 1) ∧
    ((calculate_results sampleInput).monthly_contribution - 1) *
        max 1 (sampleInput.goal_months.getD 1) <
      sampleInput.goal_amount.getD 0 :=
  C5_ceiling_division sampleInput (by decide)

/-- The five required-numeric states of the dialogue (the skippable
numeric states and the string state are excluded). -/
def isRequiredNumeric : BState → Bool
  | .waiting_for_salary => true
  | .waiting_for_rent => true
  | .waiting_for_transport => true
  | .waiting_for_goal_amount => true
  | .waiting_for_goal_months => true
  | _ => false

/-- The bound each required-numeric field must satisfy: `> 0` for
salary/goalAmount/goalMonths, `≥ 0` for rent/transport. -/
def fieldBoundOK : BState → Int → Bool
  | .waiting_for_salary, n => decide (0 < n)
  | .waiting_for_goal_amount, n => decide (0 < n)
  | .waiting_for_goal_months, n => decide (0 < n)
  | .waiting_for_rent, n => decide (0 ≤ n)
  | .waiting_for_transport, n => decide (0 ≤ n)
  | _, _ => false

/-- The handler result a valid reply `n` produces at each required-numeric
state: exactly one field written, state advanced (for `goal_months`:
report emitted and state cleared). -/
def validReqResult : BState → UserData → Int → HandlerResult
  | .waiting_for_salary, d, n =>
    { state := .waiting_for_other_income,
      data := { d with salary := some n }, out := [.ackSalary] }
  | .waiting_for_rent, d, n =>
    { state := .waiting_for_transport,
      data := { d with rent := some n }, out := [.ackRent] }
  | .waiting_for_transport, d, n =>
    { state := .waiting_for_other_bills,
      data := { d with transport := some n }, out := [.ackTransport] }
  | .waiting_for_goal_amount, d, n =>
    { state := .waiting_for_goal_months,
      data := { d with goal_amount := some n }, out := [.ackGoalAmount] }
  | .waiting_for_goal_months, d, n =>
    { state := .idle, data := { d with goal_months := some n },
      out := [.report (calculate_results { d with goal_months := some n }),
              .logCalcDone] }
  | st, d, _ => { state := st, data := d, out := [] }

/-- C3: at every required-numeric state, a data reply (anything but the
cancel signal) that fails to parse or fails the field's bound leaves the
stored fields and the state unchanged and emits only the validation
re-prompt; a valid reply produces exactly the one-field mutation and
advance described by `validReqResult`. -/
theorem C3_required_step_validation (st : BState) (d : UserData) (t : String)
    (hreq : isRequiredNumeric st = true) (hnc : t ≠ cancelText) :
    (stripSepInt t = none →
      stateHandler st d t false =
        { state := st, data := d, out := [.validationError] }) ∧
    (∀ n, stripSepInt t = some n → fieldBoundOK st n = false →
      stateHandler st d t false =
        { state := st, data := d, out := [.validationError] }) ∧
    (∀ n, stripSepInt t = some n → fieldBoundOK st n = true →
      stateHandler st d t false = validReqResult st d n) := by
  cases st
  case idle => simp [isRequiredNumeric] at hreq
  case waiting_for_other_income => simp [isRequiredNumeric] at hreq
  case waiting_for_other_bills => simp [isRequiredNumeric] at hreq
  case waiting_for_goal_name => simp [isRequiredNumeric] at hreq
  case waiting_for_salary =>
    refine ⟨fun hp => ?_, fun n hp hb => ?_, fun n hp hb => ?_⟩
    · simp [stateHandler, process_salary, if_neg hnc, hp]
    · have hb' : ¬ (0:Int) < n := by simpa [fieldBoundOK] using hb
      simp only [stateHandler, process_salary, if_neg hnc, hp]
      rw [if_pos (by omega)]
    · have hb' : (0:Int) < n := by simpa [fieldBoundOK] using hb
      simp only [stateHandler, process_salary, validReqResult, if_neg hnc, hp]
      rw [if_neg (by omega)]
  case waiting_for_rent =>
    refine ⟨fun hp => ?_, fun n hp hb => ?_, fun n hp hb => ?_⟩
    · simp [stateHandler, process_rent, if_neg hnc, hp]
    · have hb' : ¬ (0:Int) ≤ n := by simpa [fieldBoundOK] using hb
      simp only [stateHandler, process_rent, if_neg hnc, hp]
      rw [if_pos (by omega)]
    · have hb' : (0:Int) ≤ n := by simpa [fieldBoundOK] using hb
      simp only [stateHandler, process_rent, validReqResult, if_neg hnc, hp]
      rw [if_neg (by omega)]
  case waiting_for_transport =>
    refine ⟨fun hp => ?_, fun n hp hb => ?_, fun n hp hb => ?_⟩
    · simp [stateHandler, process_transport, if_neg hnc, hp]
    · have hb' : ¬ (0:Int) ≤ n := by simpa [fieldBoundOK] using hb
      simp only [stateHandler, process_transport, if_neg hnc, hp]
      rw [if_pos (by omega)]
    · have hb' : (0:Int) ≤ n := by simpa [fieldBoundOK] using hb
      simp only [stateHandler, process_transport, validReqResult, if_neg hnc, hp]
      rw [if_neg (by omega)]
  case waiting_for_goal_amount =>
    refine ⟨fun hp => ?_, fun n hp hb => ?_, fun n hp hb => ?_⟩
    · simp [stateHandler, process_goal_amount, if_neg hnc, hp]
    · have hb' : ¬ (0:Int) < n := by simpa [fieldBoundOK] using hb
      simp only [stateHandler, process_goal_amount, if_neg hnc, hp]
      rw [if_pos (by omega)]
    · have hb' : (0:Int) < n := by simpa [fieldBoundOK] using hb
      simp only [stateHandler, process_goal_amount, validReqResult, if_neg hnc, hp]
      rw [if_neg (by omega)]
  case waiting_for_goal_months =>
    refine ⟨fun hp => ?_, fun n hp hb => ?_, fun n hp hb => ?_⟩
    · simp [stateHandler, process_goal_months, if_neg hnc, hp]
    · have hb' : ¬ (0:Int) < n := by simpa [fieldBoundOK] using hb
      simp only [stateHandler, process_goal_months, if_neg hnc, hp]
      rw [if_pos (by omega)]
    · have hb' : (0:Int) < n := by simpa [fieldBoundOK] using hb
      simp only [stateHandler, process_goal_months, validReqResult, if_neg hnc, hp]
      rw [if_neg (by omega)]
      rfl

/-- Witness for C3: the malformed reply "abc" at `waiting_for_salary`
leaves the empty session and the state unchanged. -/
theorem C3_required_step_validation_witness :
    stateHandler .waiting_for_salary emptyData "abc" false =
      { state := .waiting_for_salary, data := emptyData,
        out := [.validationError] } :=
  (C3_required_step_validation .waiting_for_salary emptyData "abc"
    (by decide) (by decide)).1 (by decide)

/-- C6: the divisor used for the goal contribution is `max 1 goal_months`
(so non-positive `goal_months` is coerced to 1 and the ceiling division
never divides by zero), and `calculate_results` — a total Lean function —
echoes that coerced value as its `goal_months`. -/
theorem C6_effective_months (d : UserData) :
    0 < max 1 (d.goal_months.getD 1) ∧
    (calculate_results d).monthly_contribution =
      Int.fdiv (d.goal_amount.getD 0 + max 1 (d.goal_months.getD 1) - 1)
        (max 1 (d.goal_months.getD 1)) ∧
    (calculate_results d).goal_months = max 1 (d.goal_months.getD 1) :=
  ⟨lt_of_lt_of_le zero_lt_one (le_max_left 1 _), rfl, rfl⟩

/-- C2 counterexample: after a cancel mid-dialogue, and equally after a
fully completed dialogue, the FSM is back in the default state but the
collected fields are still stored in the per-user dict (`state.clear()`
never deletes `user_data[uid]`), refuting "no partially- or
fully-collected fields remain stored". -/
theorem C2_counterexample :
    -- cancel after one collected field
    ((step (step (step .idle emptyData startButtonText false).state
        (step .idle emptyData startButtonText false).data "70000" false).state
        (step (step .idle emptyData startButtonText false).state
        (step .idle emptyData startButtonText false).data "70000" false).data
        cancelText false).state = .idle ∧
     (step (step (step .idle emptyData startButtonText false).state
        (step .idle emptyData startButtonText false).data "70000" false).state
        (step (step .idle emptyData startButtonText false).state
        (step .idle emptyData startButtonText false).data "70000" false).data
        cancelText false).data.salary = some 70000) ∧
    -- completed dialogue: terminal transition done, fields still stored
    ((stateHandler .waiting_for_goal_months sampleInput "10" false).state = .idle ∧
     (stateHandler .waiting_for_goal_months sampleInput "10" false).data.salary =
       some 70000) := by
  decide

/-- C2 amended: completion and cancellation return the machine to the
default state, but the collected fields for the user persist in the
per-user dict; they are discarded only when the next "start" button
press resets the dict entry. -/
theorem C2_state_cleared_fields_persist (st : BState) (d : UserData)
    (t : String) (g : Int) (hst : st ≠ BState.idle) (hnc : t ≠ cancelText)
    (hp : stripSepInt t = some g) (hg : 0 < g) :
    (stateHandler st d cancelText false =
      { state := .idle, data := d, out := [.cancelAck] }) ∧
    (stateHandler .waiting_for_goal_months d t false =
      { state := .idle, data := { d with goal_months := some g },
        out := [.report (calculate_results { d with goal_months := some g }),
                .logCalcDone] }) ∧
    (step st d startButtonText false).data = emptyData := by
  refine ⟨?_, ?_, ?_⟩
  · cases st
    case idle => exact absurd rfl hst
    all_goals
      simp [stateHandler, process_salary, process_other_income, process_rent,
        process_transport, process_other_bills, process_goal_name,
        process_goal_amount, process_goal_months, cancel_calculation]
  · simp only [stateHandler, process_goal_months, if_neg hnc, hp]
    rw [if_neg (by omega)]
    rfl
  · rfl

/-- Witness for C2's amended statement at a concrete state and reply. -/
theorem C2_state_cleared_fields_persist_witness :
    (stateHandler .waiting_for_salary emptyData cancelText false =
      { state := .idle, data := emptyData, out := [.cancelAck] }) ∧
    (stateHandler .waiting_for_goal_months emptyData "10" false =
      { state := .idle, data := { emptyData with goal_months := some 10 },
        out := [.report (calculate_results { emptyData with goal_months := some 10 }),
                .logCalcDone] }) ∧
    (step .waiting_for_salary emptyData startButtonText false).data = emptyData :=
  C2_state_cleared_fields_persist .waiting_for_salary emptyData "10" 10
    (by decide) (by decide) (by decide) (by decide)

/-- C7 counterexample: the reply "a" is non-empty after trimming, yet
`process_goal_name` re-prompts without storing it or advancing, because
the source rejects trimmed names shorter than 2 characters. -/
theorem C7_counterexample :
    pyStrip "a" ≠ "" ∧
    process_goal_name emptyData "a" =
      { state := .waiting_for_goal_name, data := emptyData,
        out := [.validationError] } := by
  decide

/-- C7 amended: at `waiting_for_goal_name`, any data reply whose trimmed
form has at least 2 characters is accepted immediately (stored and the
machine advances); a reply whose trimmed form is shorter than 2
characters (empty or a single character) re-prompts without advancing and
without mutating the session. -/
theorem C7_goal_name_min_length (d : UserData) (t : String)
    (hnc : t ≠ cancelText) :
    (2 ≤ (pyStrip t).length →
      process_goal_name d t =
        { state := .waiting_for_goal_amount,
          data := { d with goal_name := some (pyStrip t) },
          out := [.ackGoalName] }) ∧
    ((pyStrip t).length < 2 →
      process_goal_name d t =
        { state := .waiting_for_goal_name, data := d,
          out := [.validationError] }) := by
  constructor
  · intro hlen
    simp only [process_goal_name, if_neg hnc]
    rw [if_neg (by omega)]
  · intro hlen
    simp only [process_goal_name, if_neg hnc]
    rw [if_pos hlen]

/-- Witness for C7's amended statement: "Отпуск" is accepted and stored. -/
theorem C7_goal_name_min_length_witness :
    process_goal_name emptyData "Отпуск" =
      { state := .waiting_for_goal_amount,
        data := { emptyData with goal_name := some (pyStrip "Отпуск") },
        out := [.ackGoalName] } :=
  (C7_goal_name_min_length emptyData "Отпуск" (by decide)).1 (by decide)

/-- C8 counterexample: when an unexpected exception interrupts the
terminal computation, the handler logs, emits the generic failure
message, and returns to the default state — but the collected fields
(here `salary`) are still stored, refuting "the session is cleared". -/
theorem C8_counterexample :
    (process_goal_months { emptyData with salary := some 70000 } "10" true).state
        = .idle ∧
    (process_goal_months { emptyData with salary := some 70000 } "10" true).out
        = [.logCalcError, .genericErrorMsg] ∧
    (process_goal_months { emptyData with salary := some 70000 } "10" true).data.salary
        = some 70000 := by
  decide

/-- C8 amended: an unexpected internal error during the terminal
computation is caught, a log entry is written, a generic failure message
is emitted, and the FSM state is cleared so the machine returns to the
default state (never stuck in a dialogue state); the collected fields,
including the just-stored `goal_months`, remain in the per-user dict. -/
theorem C8_unexpected_error_recovery (d : UserData) (t : String) (g : Int)
    (hnc : t ≠ cancelText) (hp : stripSepInt t = some g) (hg : 0 < g) :
    process_goal_months d t true =
      { state := .idle, data := { d with goal_months := some g },
        out := [.logCalcError, .genericErrorMsg] } := by
  simp only [process_goal_months, if_neg hnc, hp]
  rw [if_neg (by omega)]
  rfl

/-- Witness for C8's amended statement at a concrete reply. -/
theorem C8_unexpected_error_recovery_witness :
    process_goal_months emptyData "10" true =
      { state := .idle, data := { emptyData with goal_months := some 10 },
        out := [.logCalcError, .genericErrorMsg] } :=
  C8_unexpected_error_recovery emptyData "10" 10 (by decide) (by decide)
    (by decide)

/-- C9: a `/start` or `/help` command, or the help menu button, received
in any FSM state, is routed to the static welcome message handler
(registered before the state handlers) and leaves both the dialogue step
and every collected field exactly as before. -/
theorem C9_help_leaves_session_unchanged (st : BState) (d : UserData)
    (t : String) (b : Bool)
    (h : isStartOrHelpCommand t = true ∨ t = helpButtonText) :
    step st d t b = { state := st, data := d, out := [.welcome] } := by
  rcases h with h | h
  · simp [step, h]
  · subst h
    simp [step, show isStartOrHelpCommand helpButtonText = false from by decide]

/-- Witness for C9: "/help" during `waiting_for_rent` with one collected
field changes nothing. -/
theorem C9_help_leaves_session_unchanged_witness :
    step .waiting_for_rent { emptyData with salary := some 70000 } "/help" false =
      { state := .waiting_for_rent, data := { emptyData with salary := some 70000 },
        out := [.welcome] } :=
  C9_help_leaves_session_unchanged .waiting_for_rent
    { emptyData with salary := some 70000 } "/help" false (Or.inl (by decide))

/-- The seven numeric data-entry states (all but `waiting_for_goal_name`). -/
def isNumericStep : BState → Bool
  | .waiting_for_salary => true
  | .waiting_for_other_income => true
  | .waiting_for_rent => true
  | .waiting_for_transport => true
  | .waiting_for_other_bills => true
  | .waiting_for_goal_amount => true
  | .waiting_for_goal_months => true
  | _ => false

/-- Any text other than the exact cancel-button string never produces the
cancellation acknowledgment in `process_salary`. -/
lemma cancelAck_not_mem_salary (d : UserData) (t : String)
    (hc : t ≠ cancelText) : Out.cancelAck ∉ (process_salary d t).out := by
  simp only [process_salary, if_neg hc]
  split
  · simp
  · split <;> simp

/-- As `cancelAck_not_mem_salary`, for the skippable `process_other_income`. -/
lemma cancelAck_not_mem_other_income (d : UserData) (t : String)
    (hc : t ≠ cancelText) : Out.cancelAck ∉ (process_other_income d t).out := by
  simp only [process_other_income, if_neg hc]
  by_cases hs : t = skipText
  · simp [hs]
  · simp only [if_neg hs]
    split
    · simp
    · split <;> simp

/-- As `cancelAck_not_mem_salary`, for `process_rent`. -/
lemma cancelAck_not_mem_rent (d : UserData) (t : String)
    (hc : t ≠ cancelText) : Out.cancelAck ∉ (process_rent d t).out := by
  simp only [process_rent, if_neg hc]
  split
  · simp
  · split <;> simp

/-- As `cancelAck_not_mem_salary`, for `process_transport`. -/
lemma cancelAck_not_mem_transport (d : UserData) (t : String)
    (hc : t ≠ cancelText) : Out.cancelAck ∉ (process_transport d t).out := by
  simp only [process_transport, if_neg hc]
  split
  · simp
  · split <;> simp

/-- As `cancelAck_not_mem_salary`, for the skippable `process_other_bills`. -/
lemma cancelAck_not_mem_other_bills (d : UserData) (t : String)
    (hc : t ≠ cancelText) : Out.cancelAck ∉ (process_other_bills d t).out := by
  simp only [process_other_bills, if_neg hc]
  by_cases hs : t = skipText
  · simp [hs]
  · simp only [if_neg hs]
    split
    · simp
    · split <;> simp

/-- As `cancelAck_not_mem_salary`, for `process_goal_name`. -/
lemma cancelAck_not_mem_goal_name (d : UserData) (t : String)
    (hc : t ≠ cancelText) : Out.cancelAck ∉ (process_goal_name d t).out := by
  simp only [process_goal_name, if_neg hc]
  split <;> simp

/-- As `cancelAck_not_mem_salary`, for `process_goal_amount`. -/
lemma cancelAck_not_mem_goal_amount (d : UserData) (t : String)
    (hc : t ≠ cancelText) : Out.cancelAck ∉ (process_goal_amount d t).out := by
  simp only [process_goal_amount, if_neg hc]
  split
  · simp
  · split <;> simp

/-- As `cancelAck_not_mem_salary`, for `process_goal_months` (with or
without an injected unexpected exception). -/
lemma cancelAck_not_mem_goal_months (d : UserData) (t : String) (b : Bool)
    (hc : t ≠ cancelText) : Out.cancelAck ∉ (process_goal_months d t b).out := by
  simp only [process_goal_months, if_neg hc]
  split
  · simp
  · split
    · simp
    · split <;> simp

/-- C10: across the eight data-entry handlers, the cancellation
acknowledgment is produced exactly for the input text "❌ Отменить расчет";
the skip-keyboard label "❌ Отменить" is not recognized as cancellation:
at every numeric step it falls through to integer parsing, fails, and
yields only the validation re-prompt with state and fields unchanged. -/
theorem C10_cancel_text_exact (st : BState) (d : UserData) (t : String)
    (b : Bool) (hst : st ≠ BState.idle) :
    (Out.cancelAck ∈ (stateHandler st d t b).out ↔ t = cancelText) ∧
    (isNumericStep st = true →
      stateHandler st d altCancelText b =
        { state := st, data := d, out := [.validationError] }) := by
  constructor
  · constructor
    · intro hmem
      by_contra hc
      cases st
      case idle => exact absurd rfl hst
      case waiting_for_salary => exact cancelAck_not_mem_salary d t hc hmem
      case waiting_for_other_income =>
        exact cancelAck_not_mem_other_income d t hc hmem
      case waiting_for_rent => exact cancelAck_not_mem_rent d t hc hmem
      case waiting_for_transport => exact cancelAck_not_mem_transport d t hc hmem
      case waiting_for_other_bills =>
        exact cancelAck_not_mem_other_bills d t hc hmem
      case waiting_for_goal_name => exact cancelAck_not_mem_goal_name d t hc hmem
      case waiting_for_goal_amount =>
        exact cancelAck_not_mem_goal_amount d t hc hmem
      case waiting_for_goal_months =>
        exact cancelAck_not_mem_goal_months d t b hc hmem
    · intro hc
      subst hc
      cases st <;>
        simp [stateHandler, process_salary, process_other_income, process_rent,
          process_transport, process_other_bills, process_goal_name,
          process_goal_amount, process_goal_months, cancel_calculation]
      exact absurd rfl hst
  · intro hnum
    cases st
    case idle => simp [isNumericStep] at hnum
    case waiting_for_goal_name => simp [isNumericStep] at hnum
    all_goals
      simp [stateHandler, process_salary, process_other_income, process_rent,
        process_transport, process_other_bills, process_goal_amount,
        process_goal_months,
        show altCancelText ≠ cancelText from by decide,
        show altCancelText ≠ skipText from by decide,
        show stripSepInt altCancelText = none from by decide]

/-- Witness for C10 at `waiting_for_salary` with a plain numeric reply. -/
theorem C10_cancel_text_exact_witness :
    (Out.cancelAck ∈ (stateHandler .waiting_for_salary emptyData "5000" false).out ↔
      ("5000" : String) = cancelText) ∧
    (isNumericStep .waiting_for_salary = true →
      stateHandler .waiting_for_salary emptyData altCancelText false =
        { state := .waiting_for_salary, data := emptyData,
          out := [.validationError] }) :=
  C10_cancel_text_exact .waiting_for_salary emptyData "5000" false (by decide)
